import Mathlib

/- A shallow embedding of the fragment shader of src/task3/task3.cpp:
   analytic ray tracing of a sphere, an axis-aligned box and a checkered
   plane with front-to-back alpha compositing.  GLSL float arithmetic is
   modelled over the real numbers; GLSL sqrt becomes Real.sqrt and the
   componentwise 1.0 / rd of the slab test becomes real division, so rays
   are meaningful when the relevant direction components are nonzero. -/

namespace Task3

/-- Embedding of the GLSL vec3 type. -/
structure Vec3 where
  x : ℝ
  y : ℝ
  z : ℝ

/-- Embedding of the GLSL vec4 type. -/
structure Vec4 where
  x : ℝ
  y : ℝ
  z : ℝ
  w : ℝ

noncomputable instance : Add Vec3 :=
  ⟨fun a b => ⟨a.x + b.x, a.y + b.y, a.z + b.z⟩⟩

noncomputable instance : Sub Vec3 :=
  ⟨fun a b => ⟨a.x - b.x, a.y - b.y, a.z - b.z⟩⟩

noncomputable instance : SMul ℝ Vec3 :=
  ⟨fun r v => ⟨r * v.x, r * v.y, r * v.z⟩⟩

/-- GLSL dot product. -/
noncomputable def dot (a b : Vec3) : ℝ := a.x * b.x + a.y * b.y + a.z * b.z

/-- Componentwise product of two vectors. -/
noncomputable def vmul (a b : Vec3) : Vec3 := ⟨a.x * b.x, a.y * b.y, a.z * b.z⟩

/-- Componentwise minimum, as GLSL min on vectors. -/
noncomputable def vmin (a b : Vec3) : Vec3 := ⟨min a.x b.x, min a.y b.y, min a.z b.z⟩

/-- Componentwise maximum, as GLSL max on vectors. -/
noncomputable def vmax (a b : Vec3) : Vec3 := ⟨max a.x b.x, max a.y b.y, max a.z b.z⟩

/-- Componentwise reciprocal, as the shader expression 1.0 / rd. -/
noncomputable def vinv (v : Vec3) : Vec3 := ⟨1 / v.x, 1 / v.y, 1 / v.z⟩

/-- GLSL length of a vector. -/
noncomputable def vlength (v : Vec3) : ℝ := Real.sqrt (dot v v)

/-- GLSL normalize. -/
noncomputable def vnormalize (v : Vec3) : Vec3 := (1 / vlength v) • v

/-- The rgb swizzle of a vec4. -/
def Vec4.rgb (v : Vec4) : Vec3 := ⟨v.x, v.y, v.z⟩

/-- The a component of a vec4. -/
def Vec4.a (v : Vec4) : ℝ := v.w

/-- Shader constant EPSILON, line 65 of the source. -/
noncomputable def EPSILON : ℝ := 0.001

/-- Shader constant MAX_BOUNCES, line 64 of the source. -/
def MAX_BOUNCES : Nat := 3

/-- GLSL sign function. -/
noncomputable def glslSign (x : ℝ) : ℝ := if 0 < x then 1 else if x < 0 then -1 else 0

/-- GLSL floor, returning a real value. -/
noncomputable def glslFloor (x : ℝ) : ℝ := (Int.floor x : ℝ)

/-- GLSL mod, defined as x - y * floor (x / y). -/
noncomputable def glslMod (x y : ℝ) : ℝ := x - y * glslFloor (x / y)

/-- Embedding of intersectSphere, lines 69 to 84 of the source. -/
noncomputable def intersectSphere (ro rd sc : Vec3) (sr : ℝ) : ℝ :=
  let oc := ro - sc
  let a := dot rd rd
  let b := 2 * dot oc rd
  let c := dot oc oc - sr * sr
  let discriminant := b * b - 4 * a * c
  if discriminant < 0 then -1
  else
    let t1 := (-b - Real.sqrt discriminant) / (2 * a)
    let t2 := (-b + Real.sqrt discriminant) / (2 * a)
    if EPSILON < t1 ∧ (t1 < t2 ∨ t2 < EPSILON) then t1
    else if EPSILON < t2 then t2
    else -1

/-- Slab entry distance tNear of intersectAABB, lines 89 to 96 of the source. -/
noncomputable def slabTNear (ro rd bmin bmax : Vec3) : ℝ :=
  let invDir := vinv rd
  let tMinPlanes := vmul (bmin - ro) invDir
  let tMaxPlanes := vmul (bmax - ro) invDir
  let t1 := vmin tMinPlanes tMaxPlanes
  max (max t1.x t1.y) t1.z

/-- Slab exit distance tFar of intersectAABB, lines 89 to 97 of the source. -/
noncomputable def slabTFar (ro rd bmin bmax : Vec3) : ℝ :=
  let invDir := vinv rd
  let tMinPlanes := vmul (bmin - ro) invDir
  let tMaxPlanes := vmul (bmax - ro) invDir
  let t2 := vmax tMinPlanes tMaxPlanes
  min (min t2.x t2.y) t2.z

/-- Face selection for the box hit normal, lines 107 to 114 of the source:
the axis of largest absolute local coordinate, signed by that coordinate. -/
noncomputable def maxAxisNormal (v : Vec3) : Vec3 :=
  if |v.x| > |v.y| ∧ |v.x| > |v.z| then ⟨glslSign v.x, 0, 0⟩
  else if |v.y| > |v.z| then ⟨0, glslSign v.y, 0⟩
  else ⟨0, 0, glslSign v.z⟩

/-- Center of the box, line 102 of the source. -/
noncomputable def boxCenter (bmin bmax : Vec3) : Vec3 := (0.5 : ℝ) • (bmin + bmax)

/-- Embedding of intersectAABB, lines 88 to 121 of the source.  The GLSL out
parameter outHitNormal becomes the second component of the result; the value
outInit models the content of the out parameter when the function does not
write it. -/
noncomputable def intersectAABB (ro rd bmin bmax outInit : Vec3) : ℝ × Vec3 :=
  let tNear := slabTNear ro rd bmin bmax
  let tFar := slabTFar ro rd bmin bmax
  if tNear < tFar ∧ EPSILON < tFar then
    if EPSILON < tNear then
      let hitPoint := ro + tNear • rd
      let local_hit_point := hitPoint - boxCenter bmin bmax
      (tNear, maxAxisNormal local_hit_point)
    else (-1, outInit)
  else (-1, outInit)

/-- Embedding of intersectPlane, lines 125 to 132 of the source. -/
noncomputable def intersectPlane (ro rd pn : Vec3) (pd : ℝ) : ℝ :=
  let denom := dot rd pn
  if EPSILON < |denom| then
    let t := (pd - dot ro pn) / denom
    if EPSILON < t then t else -1
  else -1

/-- Scene uniforms consumed by the fragment shader. -/
structure Scene where
  sphereCenter : Vec3
  sphereRadius : ℝ
  sphereColorAlpha : Vec4
  cubeMin : Vec3
  cubeMax : Vec3
  cubeColorAlpha : Vec4
  planeNormal : Vec3
  planeD : ℝ
  checkerColor1 : Vec3
  checkerColor2 : Vec3
  checkerScale : ℝ

/-- Seam for the surface normal values of one loop iteration: the sphere hit
normal of line 169 and the incoming (possibly never written) value of the
cubeHitNormal out parameter of line 174.  The traced color must not depend on
either. -/
structure NormalOracle where
  sphereNormal : Vec3 → Vec3 → ℝ → Vec3
  cubeInit : Vec3

/-- The normal values the shader itself produces, line 169 of the source; the
out parameter initial value is arbitrary garbage, taken here as zero. -/
noncomputable def actualOracle (s : Scene) : NormalOracle :=
  ⟨fun ro rd t => vnormalize ((ro + t • rd) - s.sphereCenter), ⟨0, 0, 0⟩⟩

/-- Result of the nearest-hit selection of one loop iteration. -/
structure HitInfo where
  t : ℝ
  colorAlpha : Vec4
  normal : Vec3
  hitType : Nat

/-- Embedding of lines 159 to 181 of the source: test the sphere and the box
and keep the nearest accepted hit, starting from t_hit = 1e20 and hitType 0. -/
noncomputable def selectHit (nm : NormalOracle) (s : Scene) (ro rd : Vec3) : HitInfo :=
  let h0 : HitInfo := ⟨1e20, ⟨0, 0, 0, 0⟩, ⟨0, 0, 0⟩, 0⟩
  let t_sphere := intersectSphere ro rd s.sphereCenter s.sphereRadius
  let h1 := if EPSILON < t_sphere ∧ t_sphere < h0.t then
      ⟨t_sphere, s.sphereColorAlpha, nm.sphereNormal ro rd t_sphere, 1⟩
    else h0
  let cubeRes := intersectAABB ro rd s.cubeMin s.cubeMax nm.cubeInit
  let h2 := if EPSILON < cubeRes.1 ∧ cubeRes.1 < h1.t then
      ⟨cubeRes.1, s.cubeColorAlpha, cubeRes.2, 2⟩
    else h1
  h2

/-- Checker pattern value of lines 207 to 208 of the source. -/
noncomputable def checkerPattern (scale x y : ℝ) : ℝ :=
  glslMod (glslFloor (x * scale) + glslFloor (y * scale)) 2

/-- Checker color choice of line 208 of the source. -/
noncomputable def checkerSelect (c1 c2 : Vec3) (p : ℝ) : Vec3 :=
  if p < 0.5 then c1 else c2

/-- Embedding of lines 194 to 213 of the source: the color contributed when no
sphere or box hit was selected, either the checkered plane or the background. -/
noncomputable def planeOrBackground (s : Scene) (ro rd : Vec3) : Vec3 :=
  let t_plane := intersectPlane ro rd s.planeNormal s.planeD
  if EPSILON < t_plane then
    let p := ro + t_plane • rd
    let bc : ℝ × ℝ :=
      if 0.99 < |s.planeNormal.z| then (p.x, p.y)
      else if 0.99 < |s.planeNormal.y| then (p.x, p.z)
      else (p.y, p.z)
    checkerSelect s.checkerColor1 s.checkerColor2 (checkerPattern s.checkerScale bc.1 bc.2)
  else ⟨0.1, 0.1, 0.15⟩

/-- Embedding of the bounce loop, lines 156 to 216 of the source, by recursion
on the remaining bounce budget.  State: ray origin, ray direction, accumulated
color and transmission.  A selected sphere or box hit composites its color and
continues; otherwise the plane or background is composited and the loop breaks.
Exhausting the budget returns the accumulated color as is. -/
noncomputable def traceLoop (nm : NormalOracle) (s : Scene) :
    Nat → Vec3 → Vec3 → Vec3 → ℝ → Vec3
  | 0, _, _, col, _ => col
  | n + 1, ro, rd, col, tr =>
    if tr < 0.01 then col
    else
      let h := selectHit nm s ro rd
      if 0 < h.hitType then
        traceLoop nm s n (ro + (h.t + EPSILON * 2) • rd) rd
          (col + (tr * h.colorAlpha.a) • h.colorAlpha.rgb)
          (tr * (1 - h.colorAlpha.a))
      else
        col + tr • planeOrBackground s ro rd

/-- Embedding of the per-fragment result, lines 150 to 217 of the source: the
trace starts with black accumulated color and transmission one, runs for
MAX_BOUNCES iterations, and the output alpha is forced to one. -/
noncomputable def fragShader (nm : NormalOracle) (s : Scene) (ro rd : Vec3) : Vec4 :=
  let c := traceLoop nm s MAX_BOUNCES ro rd ⟨0, 0, 0⟩ 1
  ⟨c.x, c.y, c.z, 1⟩

/-- Coefficient a of the sphere quadratic, line 71 of the source. -/
noncomputable def sphereA (rd : Vec3) : ℝ := dot rd rd

/-- Coefficient b of the sphere quadratic, line 72 of the source. -/
noncomputable def sphereB (ro rd sc : Vec3) : ℝ := 2 * dot (ro - sc) rd

/-- Coefficient c of the sphere quadratic, line 73 of the source. -/
noncomputable def sphereC (ro sc : Vec3) (sr : ℝ) : ℝ := dot (ro - sc) (ro - sc) - sr * sr

/-- Discriminant of the sphere quadratic, line 74 of the source. -/
noncomputable def sphereDisc (ro rd sc : Vec3) (sr : ℝ) : ℝ :=
  sphereB ro rd sc * sphereB ro rd sc - 4 * sphereA rd * sphereC ro sc sr

/-- Smaller quadratic root t1 of intersectSphere, line 78 of the source. -/
noncomputable def sphereT1 (ro rd sc : Vec3) (sr : ℝ) : ℝ :=
  (-sphereB ro rd sc - Real.sqrt (sphereDisc ro rd sc sr)) / (2 * sphereA rd)

/-- Larger quadratic root t2 of intersectSphere, line 79 of the source. -/
noncomputable def sphereT2 (ro rd sc : Vec3) (sr : ℝ) : ℝ :=
  (-sphereB ro rd sc + Real.sqrt (sphereDisc ro rd sc sr)) / (2 * sphereA rd)

/-- A normal oracle that returns zero everywhere, for concrete instantiations. -/
noncomputable def zeroOracle : NormalOracle := ⟨fun _ _ _ => ⟨0, 0, 0⟩, ⟨0, 0, 0⟩⟩

/-- A concrete scene whose box is hit from the origin along direction one one
one while the sphere is far away, for concrete instantiations. -/
noncomputable def sceneCube : Scene :=
  ⟨⟨100, 0, 0⟩, 1, ⟨1, 0, 0, 1/2⟩, ⟨1, 1, 1⟩, ⟨2, 2, 2⟩, ⟨0, 0, 1, 1/2⟩,
    ⟨0, 0, 1⟩, -2, ⟨4/5, 4/5, 4/5⟩, ⟨3/10, 3/10, 3/10⟩, 3/2⟩

@[simp] theorem add_x (a b : Vec3) : (a + b).x = a.x + b.x := rfl

@[simp] theorem add_y (a b : Vec3) : (a + b).y = a.y + b.y := rfl

@[simp] theorem add_z (a b : Vec3) : (a + b).z = a.z + b.z := rfl

@[simp] theorem sub_x (a b : Vec3) : (a - b).x = a.x - b.x := rfl

@[simp] theorem sub_y (a b : Vec3) : (a - b).y = a.y - b.y := rfl

@[simp] theorem sub_z (a b : Vec3) : (a - b).z = a.z - b.z := rfl

@[simp] theorem smul_x (r : ℝ) (v : Vec3) : (r • v).x = r * v.x := rfl

@[simp] theorem smul_y (r : ℝ) (v : Vec3) : (r • v).y = r * v.y := rfl

@[simp] theorem smul_z (r : ℝ) (v : Vec3) : (r • v).z = r * v.z := rfl

/-- Unfolding of intersectSphere through the named quadratic quantities. -/
theorem intersectSphere_eq (ro rd sc : Vec3) (sr : ℝ) :
    intersectSphere ro rd sc sr =
      if sphereDisc ro rd sc sr < 0 then -1
      else if EPSILON < sphereT1 ro rd sc sr ∧
          (sphereT1 ro rd sc sr < sphereT2 ro rd sc sr ∨ sphereT2 ro rd sc sr < EPSILON)
        then sphereT1 ro rd sc sr
      else if EPSILON < sphereT2 ro rd sc sr then sphereT2 ro rd sc sr
      else -1 := rfl

/-- Helper: a componentwise slab minimum is nonpositive when the origin
coordinate lies strictly between the two planes, whatever the sign of the
reciprocal direction component. -/
theorem min_mul_signs_nonpos (u v w : ℝ) (hu : u < 0) (hv : 0 < v) :
    min (u * w) (v * w) ≤ 0 := by
  rcases le_total 0 w with h | h
  · have huw : u * w ≤ 0 := by nlinarith
    exact le_trans (min_le_left _ _) huw
  · have hvw : v * w ≤ 0 := by nlinarith
    exact le_trans (min_le_right _ _) hvw

/-- C9: every intersection routine returns either exactly the sentinel minus
one or a distance strictly greater than EPSILON, so callers can always
distinguish a hit from the sentinel by comparison with EPSILON. -/
theorem intersect_results_range (ro rd sc bmin bmax init pn : Vec3) (sr pd : ℝ) :
    (intersectSphere ro rd sc sr = -1 ∨ EPSILON < intersectSphere ro rd sc sr) ∧
    ((intersectAABB ro rd bmin bmax init).1 = -1 ∨
      EPSILON < (intersectAABB ro rd bmin bmax init).1) ∧
    (intersectPlane ro rd pn pd = -1 ∨ EPSILON < intersectPlane ro rd pn pd) := by
  refine ⟨?_, ?_, ?_⟩
  · simp only [intersectSphere]
    split_ifs with h1 h2 h3
    · exact Or.inl rfl
    · exact Or.inr h2.1
    · exact Or.inr h3
    · exact Or.inl rfl
  · simp only [intersectAABB]
    split_ifs with h1 h2
    · exact Or.inr h2
    · exact Or.inl rfl
    · exact Or.inl rfl
  · simp only [intersectPlane]
    split_ifs with h1 h2
    · exact Or.inr h2
    · exact Or.inl rfl
    · exact Or.inl rfl

/-- C6: a ray whose direction is orthogonal to the plane normal up to EPSILON
is reported as no hit regardless of the origin; otherwise the parametric
distance is returned exactly when it exceeds EPSILON and the sentinel is
returned otherwise. -/
theorem intersectPlane_spec (ro rd pn : Vec3) (pd : ℝ) :
    (|dot rd pn| ≤ EPSILON → intersectPlane ro rd pn pd = -1) ∧
    (EPSILON < |dot rd pn| →
      intersectPlane ro rd pn pd =
        if EPSILON < (pd - dot ro pn) / dot rd pn then (pd - dot ro pn) / dot rd pn
        else -1) := by
  constructor
  · intro h
    simp only [intersectPlane]
    rw [if_neg (not_lt.mpr h)]
  · intro h
    simp only [intersectPlane]
    rw [if_pos h]

/-- Witness for C6 at two concrete rays: a ray parallel to the plane misses
whatever its origin, and a frontal ray returns its parametric distance. -/
theorem intersectPlane_spec_witness :
    |dot ⟨1, 0, 0⟩ ⟨0, 0, 1⟩| ≤ EPSILON ∧
    intersectPlane ⟨5, 7, 9⟩ ⟨1, 0, 0⟩ ⟨0, 0, 1⟩ 3 = -1 ∧
    EPSILON < |dot ⟨0, 0, 1⟩ ⟨0, 0, 1⟩| ∧
    intersectPlane ⟨0, 0, 0⟩ ⟨0, 0, 1⟩ ⟨0, 0, 1⟩ 3 = 3 := by
  have hpar : |dot (⟨1, 0, 0⟩ : Vec3) ⟨0, 0, 1⟩| ≤ EPSILON := by
    norm_num [dot, EPSILON]
  have hfront : EPSILON < |dot (⟨0, 0, 1⟩ : Vec3) ⟨0, 0, 1⟩| := by
    norm_num [dot, EPSILON]
  refine ⟨hpar, (intersectPlane_spec ⟨5, 7, 9⟩ ⟨1, 0, 0⟩ ⟨0, 0, 1⟩ 3).1 hpar, hfront, ?_⟩
  rw [(intersectPlane_spec ⟨0, 0, 0⟩ ⟨0, 0, 1⟩ ⟨0, 0, 1⟩ 3).2 hfront]
  norm_num [dot, EPSILON]

/-- C3: when the ray origin lies strictly inside the box the slab entry
distance is at most EPSILON and the AABB test reports no hit, its entry-only
policy, even though the ray leaves through a face in front of the origin. -/
theorem intersectAABB_inside_no_hit (ro rd bmin bmax init : Vec3)
    (hx1 : bmin.x < ro.x) (hx2 : ro.x < bmax.x)
    (hy1 : bmin.y < ro.y) (hy2 : ro.y < bmax.y)
    (hz1 : bmin.z < ro.z) (hz2 : ro.z < bmax.z) :
    slabTNear ro rd bmin bmax ≤ EPSILON ∧ (intersectAABB ro rd bmin bmax init).1 = -1 := by
  have hN : slabTNear ro rd bmin bmax ≤ 0 := by
    simp only [slabTNear, vinv, vmul, vmin, sub_x, sub_y, sub_z]
    refine max_le (max_le ?_ ?_) ?_
    · exact min_mul_signs_nonpos _ _ _ (by linarith) (by linarith)
    · exact min_mul_signs_nonpos _ _ _ (by linarith) (by linarith)
    · exact min_mul_signs_nonpos _ _ _ (by linarith) (by linarith)
  have hEps : slabTNear ro rd bmin bmax ≤ EPSILON := by
    refine le_trans hN ?_
    norm_num [EPSILON]
  refine ⟨hEps, ?_⟩
  simp only [intersectAABB]
  split_ifs with h1 h2
  · exact absurd h2 (not_lt.mpr hEps)
  · rfl
  · rfl

/-- Witness for C3: an origin strictly inside the unit-to-two box makes the
AABB test report the sentinel. -/
theorem intersectAABB_inside_no_hit_witness :
    (Vec3.mk 0 0 0).x < (Vec3.mk 1 1 1).x ∧ (Vec3.mk 1 1 1).x < (Vec3.mk 2 2 2).x ∧
    (intersectAABB ⟨1, 1, 1⟩ ⟨1, 2, 3⟩ ⟨0, 0, 0⟩ ⟨2, 2, 2⟩ ⟨0, 0, 0⟩).1 = -1 :=
  ⟨by norm_num, by norm_num,
    (intersectAABB_inside_no_hit ⟨1, 1, 1⟩ ⟨1, 2, 3⟩ ⟨0, 0, 0⟩ ⟨2, 2, 2⟩ ⟨0, 0, 0⟩
      (by norm_num) (by norm_num) (by norm_num) (by norm_num) (by norm_num) (by norm_num)).2⟩

/-- Helper: floor commutes with adding the integer two. -/
theorem glslFloor_add_two (t : ℝ) : glslFloor (t + 2) = glslFloor t + 2 := by
  unfold glslFloor
  rw [show t + 2 = t + ((2 : ℤ) : ℝ) by push_cast; ring, Int.floor_add_int]
  push_cast
  ring

/-- Helper: the GLSL mod by two is invariant under adding two. -/
theorem glslMod_two_add_two (a : ℝ) : glslMod (a + 2) 2 = glslMod a 2 := by
  unfold glslMod glslFloor
  rw [show (a + 2) / 2 = a / 2 + 1 by ring, Int.floor_add_one]
  push_cast
  ring

/-- C8: for a positive checker scale the pattern value and the selected checker
color are periodic with period two over scale in each tangent coordinate. -/
theorem checkerPattern_periodic (c1 c2 : Vec3) (s x y : ℝ) (hs : 0 < s) :
    checkerPattern s (x + 2 / s) y = checkerPattern s x y ∧
    checkerPattern s x (y + 2 / s) = checkerPattern s x y ∧
    checkerSelect c1 c2 (checkerPattern s (x + 2 / s) y) =
      checkerSelect c1 c2 (checkerPattern s x y) ∧
    checkerSelect c1 c2 (checkerPattern s x (y + 2 / s)) =
      checkerSelect c1 c2 (checkerPattern s x y) := by
  have hs0 : s ≠ 0 := ne_of_gt hs
  have hargx : (x + 2 / s) * s = x * s + 2 := by field_simp
  have hargy : (y + 2 / s) * s = y * s + 2 := by field_simp
  have hx : checkerPattern s (x + 2 / s) y = checkerPattern s x y := by
    unfold checkerPattern
    rw [hargx, glslFloor_add_two,
      show glslFloor (x * s) + 2 + glslFloor (y * s)
        = glslFloor (x * s) + glslFloor (y * s) + 2 by ring,
      glslMod_two_add_two]
  have hy : checkerPattern s x (y + 2 / s) = checkerPattern s x y := by
    unfold checkerPattern
    rw [hargy, glslFloor_add_two,
      show glslFloor (x * s) + (glslFloor (y * s) + 2)
        = glslFloor (x * s) + glslFloor (y * s) + 2 by ring,
      glslMod_two_add_two]
  exact ⟨hx, hy, by rw [hx], by rw [hy]⟩

/-- Witness for C8 at scale three halves: shifting the first tangent
coordinate by the period four thirds leaves the pattern unchanged. -/
theorem checkerPattern_periodic_witness :
    (0 : ℝ) < 3 / 2 ∧
    checkerPattern (3 / 2) (1 / 3 + 2 / (3 / 2)) (1 / 5) =
      checkerPattern (3 / 2) (1 / 3) (1 / 5) :=
  ⟨by norm_num,
    (checkerPattern_periodic ⟨1, 1, 1⟩ ⟨0, 0, 0⟩ (3 / 2) (1 / 3) (1 / 5) (by norm_num)).1⟩

/-- C2 amended: for a nondegenerate direction and a nonnegative discriminant,
the sphere test returns t1 when t1 exceeds EPSILON and t1 is below t2 or t2 is
at most EPSILON, else t2 when t2 exceeds EPSILON, else the sentinel; a ray
origin inside the sphere with t1 below EPSILON and t2 strictly above EPSILON
yields the exit distance t2.  The strictness on t2 is forced: at the boundary
t2 equal to EPSILON the code returns the sentinel. -/
theorem intersectSphere_smallest_valid_root (ro rd sc : Vec3) (sr : ℝ)
    (ha : 0 < sphereA rd) (hd : 0 ≤ sphereDisc ro rd sc sr) :
    (intersectSphere ro rd sc sr =
      if EPSILON < sphereT1 ro rd sc sr ∧
          (sphereT1 ro rd sc sr < sphereT2 ro rd sc sr ∨ sphereT2 ro rd sc sr ≤ EPSILON)
        then sphereT1 ro rd sc sr
      else if EPSILON < sphereT2 ro rd sc sr then sphereT2 ro rd sc sr
      else -1) ∧
    (sphereT1 ro rd sc sr < EPSILON → EPSILON < sphereT2 ro rd sc sr →
      intersectSphere ro rd sc sr = sphereT2 ro rd sc sr) := by
  have ht12 : sphereT1 ro rd sc sr ≤ sphereT2 ro rd sc sr := by
    unfold sphereT1 sphereT2
    have hs : 0 ≤ Real.sqrt (sphereDisc ro rd sc sr) := Real.sqrt_nonneg _
    have h2a : 0 < 2 * sphereA rd := by linarith
    exact (div_le_div_iff_of_pos_right h2a).mpr (by linarith)
  constructor
  · rw [intersectSphere_eq, if_neg (not_lt.mpr hd)]
    have hiff : (EPSILON < sphereT1 ro rd sc sr ∧
        (sphereT1 ro rd sc sr < sphereT2 ro rd sc sr ∨ sphereT2 ro rd sc sr < EPSILON)) ↔
        (EPSILON < sphereT1 ro rd sc sr ∧
        (sphereT1 ro rd sc sr < sphereT2 ro rd sc sr ∨ sphereT2 ro rd sc sr ≤ EPSILON)) := by
      constructor
      · rintro ⟨h, h2⟩
        exact ⟨h, h2.imp id le_of_lt⟩
      · rintro ⟨h, h2⟩
        refine ⟨h, ?_⟩
        rcases h2 with h2 | h2
        · exact Or.inl h2
        · exact absurd (lt_of_lt_of_le h (le_trans ht12 h2)) (lt_irrefl _)
    simp only [hiff]
  · intro hlo hhi
    rw [intersectSphere_eq, if_neg (not_lt.mpr hd)]
    have hc : ¬ (EPSILON < sphereT1 ro rd sc sr ∧
        (sphereT1 ro rd sc sr < sphereT2 ro rd sc sr ∨ sphereT2 ro rd sc sr < EPSILON)) := by
      rintro ⟨h, _⟩
      exact absurd h (not_lt.mpr hlo.le)
    rw [if_neg hc, if_pos hhi]

/-- C2 counterexample: a ray origin inside the sphere with roots minus one
thousandth and exactly one thousandth satisfies t1 below EPSILON and EPSILON at
most t2, yet the test returns the sentinel, not the exit distance t2, refuting
the claim at its boundary case t2 equal to EPSILON. -/
theorem intersectSphere_inside_boundary_counterexample :
    sphereDisc ⟨0, 1/750, 0⟩ ⟨1, 0, 0⟩ ⟨0, 0, 0⟩ (1/600) = 1/250000 ∧
    sphereT1 ⟨0, 1/750, 0⟩ ⟨1, 0, 0⟩ ⟨0, 0, 0⟩ (1/600) = -(1/1000) ∧
    sphereT2 ⟨0, 1/750, 0⟩ ⟨1, 0, 0⟩ ⟨0, 0, 0⟩ (1/600) = 1/1000 ∧
    sphereT1 ⟨0, 1/750, 0⟩ ⟨1, 0, 0⟩ ⟨0, 0, 0⟩ (1/600) < EPSILON ∧
    EPSILON ≤ sphereT2 ⟨0, 1/750, 0⟩ ⟨1, 0, 0⟩ ⟨0, 0, 0⟩ (1/600) ∧
    intersectSphere ⟨0, 1/750, 0⟩ ⟨1, 0, 0⟩ ⟨0, 0, 0⟩ (1/600) = -1 ∧
    (-1 : ℝ) ≠ 1/1000 := by
  have hdisc : sphereDisc ⟨0, 1/750, 0⟩ ⟨1, 0, 0⟩ ⟨0, 0, 0⟩ (1/600) = 1/250000 := by
    norm_num [sphereDisc, sphereA, sphereB, sphereC, dot]
  have hsq : Real.sqrt (1/250000) = 1/500 := by
    rw [show (1/250000 : ℝ) = (1/500) * (1/500) by norm_num,
      Real.sqrt_mul_self (by norm_num : (0:ℝ) ≤ 1/500)]
  have ht1 : sphereT1 ⟨0, 1/750, 0⟩ ⟨1, 0, 0⟩ ⟨0, 0, 0⟩ (1/600) = -(1/1000) := by
    rw [sphereT1, hdisc, hsq]
    norm_num [sphereA, sphereB, dot]
  have ht2 : sphereT2 ⟨0, 1/750, 0⟩ ⟨1, 0, 0⟩ ⟨0, 0, 0⟩ (1/600) = 1/1000 := by
    rw [sphereT2, hdisc, hsq]
    norm_num [sphereA, sphereB, dot]
  refine ⟨hdisc, ht1, ht2, ?_, ?_, ?_, by norm_num⟩
  · rw [ht1]
    norm_num [EPSILON]
  · rw [ht2]
    norm_num [EPSILON]
  · rw [intersectSphere_eq, hdisc, ht1, ht2]
    norm_num [EPSILON]

/-- Witness for C2 amended at a frontal ray whose roots are two and four: the
test returns the smaller root two. -/
theorem intersectSphere_smallest_valid_root_witness :
    0 < sphereA ⟨1, 0, 0⟩ ∧
    0 ≤ sphereDisc ⟨0, 0, 0⟩ ⟨1, 0, 0⟩ ⟨3, 0, 0⟩ 1 ∧
    intersectSphere ⟨0, 0, 0⟩ ⟨1, 0, 0⟩ ⟨3, 0, 0⟩ 1 = 2 := by
  have hdisc : sphereDisc ⟨0, 0, 0⟩ ⟨1, 0, 0⟩ ⟨3, 0, 0⟩ 1 = 4 := by
    norm_num [sphereDisc, sphereA, sphereB, sphereC, dot]
  have hsq : Real.sqrt 4 = 2 := by
    rw [show (4 : ℝ) = 2 * 2 by norm_num, Real.sqrt_mul_self (by norm_num : (0:ℝ) ≤ 2)]
  have ht1 : sphereT1 ⟨0, 0, 0⟩ ⟨1, 0, 0⟩ ⟨3, 0, 0⟩ 1 = 2 := by
    rw [sphereT1, hdisc, hsq]
    norm_num [sphereA, sphereB, dot]
  have ht2 : sphereT2 ⟨0, 0, 0⟩ ⟨1, 0, 0⟩ ⟨3, 0, 0⟩ 1 = 4 := by
    rw [sphereT2, hdisc, hsq]
    norm_num [sphereA, sphereB, dot]
  have ha : 0 < sphereA (⟨1, 0, 0⟩ : Vec3) := by
    norm_num [sphereA, dot]
  have hd : 0 ≤ sphereDisc ⟨0, 0, 0⟩ ⟨1, 0, 0⟩ ⟨3, 0, 0⟩ 1 := by
    rw [hdisc]
    norm_num
  refine ⟨ha, hd, ?_⟩
  rw [(intersectSphere_smallest_valid_root ⟨0, 0, 0⟩ ⟨1, 0, 0⟩ ⟨3, 0, 0⟩ 1 ha hd).1, ht1, ht2]
  norm_num [EPSILON]

/-- C4 amended: a negative discriminant makes the sphere test return the no
hit sentinel rather than signalling an error; a zero discriminant is not an
error either, but instead of reporting no hit the code falls through to the
root selection and returns the double root when it exceeds EPSILON, else the
sentinel. -/
theorem intersectSphere_nonpositive_disc (ro rd sc : Vec3) (sr : ℝ) :
    (sphereDisc ro rd sc sr < 0 → intersectSphere ro rd sc sr = -1) ∧
    (sphereDisc ro rd sc sr = 0 →
      intersectSphere ro rd sc sr =
        if EPSILON < -sphereB ro rd sc / (2 * sphereA rd) then
          -sphereB ro rd sc / (2 * sphereA rd)
        else -1) := by
  constructor
  · intro h
    rw [intersectSphere_eq, if_pos h]
  · intro h
    have ht1 : sphereT1 ro rd sc sr = -sphereB ro rd sc / (2 * sphereA rd) := by
      rw [sphereT1, h, Real.sqrt_zero, sub_zero]
    have ht2 : sphereT2 ro rd sc sr = -sphereB ro rd sc / (2 * sphereA rd) := by
      rw [sphereT2, h, Real.sqrt_zero, add_zero]
    rw [intersectSphere_eq, if_neg (not_lt.mpr h.ge), ht1, ht2]
    by_cases hr : EPSILON < -sphereB ro rd sc / (2 * sphereA rd)
    · have hc : ¬ (EPSILON < -sphereB ro rd sc / (2 * sphereA rd) ∧
          (-sphereB ro rd sc / (2 * sphereA rd) < -sphereB ro rd sc / (2 * sphereA rd) ∨
           -sphereB ro rd sc / (2 * sphereA rd) < EPSILON)) := by
        rintro ⟨h1, h2 | h2⟩
        · exact lt_irrefl _ h2
        · exact absurd h1 (not_lt.mpr h2.le)
      rw [if_neg hc, if_pos hr]
    · have hc : ¬ (EPSILON < -sphereB ro rd sc / (2 * sphereA rd) ∧
          (-sphereB ro rd sc / (2 * sphereA rd) < -sphereB ro rd sc / (2 * sphereA rd) ∨
           -sphereB ro rd sc / (2 * sphereA rd) < EPSILON)) := by
        rintro ⟨h1, _⟩
        exact hr h1
      rw [if_neg hc, if_neg hr]

/-- C4 counterexample: a tangent ray has discriminant exactly zero yet the
test returns the touch distance two, not the no hit sentinel, refuting the
zero discriminant half of the claim. -/
theorem intersectSphere_zero_disc_counterexample :
    sphereDisc ⟨0, 1, -2⟩ ⟨0, 0, 1⟩ ⟨0, 0, 0⟩ 1 = 0 ∧
    intersectSphere ⟨0, 1, -2⟩ ⟨0, 0, 1⟩ ⟨0, 0, 0⟩ 1 = 2 ∧
    (2 : ℝ) ≠ -1 := by
  have hdisc : sphereDisc ⟨0, 1, -2⟩ ⟨0, 0, 1⟩ ⟨0, 0, 0⟩ 1 = 0 := by
    norm_num [sphereDisc, sphereA, sphereB, sphereC, dot]
  have ht1 : sphereT1 ⟨0, 1, -2⟩ ⟨0, 0, 1⟩ ⟨0, 0, 0⟩ 1 = 2 := by
    rw [sphereT1, hdisc, Real.sqrt_zero]
    norm_num [sphereA, sphereB, dot]
  have ht2 : sphereT2 ⟨0, 1, -2⟩ ⟨0, 0, 1⟩ ⟨0, 0, 0⟩ 1 = 2 := by
    rw [sphereT2, hdisc, Real.sqrt_zero]
    norm_num [sphereA, sphereB, dot]
  refine ⟨hdisc, ?_, by norm_num⟩
  rw [intersectSphere_eq, hdisc, ht1, ht2]
  norm_num [EPSILON]

/-- Witness for C4 amended at a ray that misses the sphere sideways: the
discriminant is negative and the test returns the sentinel. -/
theorem intersectSphere_nonpositive_disc_witness :
    sphereDisc ⟨0, 0, 0⟩ ⟨1, 0, 0⟩ ⟨0, 3, 0⟩ 1 < 0 ∧
    intersectSphere ⟨0, 0, 0⟩ ⟨1, 0, 0⟩ ⟨0, 3, 0⟩ 1 = -1 := by
  have hd : sphereDisc ⟨0, 0, 0⟩ ⟨1, 0, 0⟩ ⟨0, 3, 0⟩ 1 < 0 := by
    norm_num [sphereDisc, sphereA, sphereB, sphereC, dot]
  exact ⟨hd, (intersectSphere_nonpositive_disc ⟨0, 0, 0⟩ ⟨1, 0, 0⟩ ⟨0, 3, 0⟩ 1).1 hd⟩

/-- C1: a bounce iteration that selected a sphere or box hit adds transmission
times surface color times alpha to the accumulated color, multiplies the
transmission by one minus alpha, advances the ray origin to the hit point
offset by twice EPSILON along the direction, and leaves the direction
unchanged. -/
theorem traceLoop_hit_step (nm : NormalOracle) (s : Scene) (n : Nat) (ro rd col : Vec3)
    (tr : ℝ) (h1 : ¬ tr < 0.01) (h2 : 0 < (selectHit nm s ro rd).hitType) :
    traceLoop nm s (n + 1) ro rd col tr =
      traceLoop nm s n (ro + ((selectHit nm s ro rd).t + EPSILON * 2) • rd) rd
        (col + (tr * (selectHit nm s ro rd).colorAlpha.a) • (selectHit nm s ro rd).colorAlpha.rgb)
        (tr * (1 - (selectHit nm s ro rd).colorAlpha.a)) := by
  rw [traceLoop, if_neg h1, if_pos h2]

/-- Witness for C1: from the origin along direction one one one the concrete
scene selects the box hit and the loop performs exactly the stated update. -/
theorem traceLoop_hit_step_witness :
    ¬ (1 : ℝ) < 0.01 ∧
    0 < (selectHit zeroOracle sceneCube ⟨0, 0, 0⟩ ⟨1, 1, 1⟩).hitType ∧
    traceLoop zeroOracle sceneCube 3 ⟨0, 0, 0⟩ ⟨1, 1, 1⟩ ⟨0, 0, 0⟩ 1 =
      traceLoop zeroOracle sceneCube 2
        (⟨0, 0, 0⟩ + ((selectHit zeroOracle sceneCube ⟨0, 0, 0⟩ ⟨1, 1, 1⟩).t + EPSILON * 2) • ⟨1, 1, 1⟩)
        ⟨1, 1, 1⟩
        (⟨0, 0, 0⟩ + ((1 : ℝ) * (selectHit zeroOracle sceneCube ⟨0, 0, 0⟩ ⟨1, 1, 1⟩).colorAlpha.a) •
          (selectHit zeroOracle sceneCube ⟨0, 0, 0⟩ ⟨1, 1, 1⟩).colorAlpha.rgb)
        (1 * (1 - (selectHit zeroOracle sceneCube ⟨0, 0, 0⟩ ⟨1, 1, 1⟩).colorAlpha.a)) := by
  have hHit : 0 < (selectHit zeroOracle sceneCube ⟨0, 0, 0⟩ ⟨1, 1, 1⟩).hitType := by
    norm_num [selectHit, sceneCube, zeroOracle, intersectSphere, intersectAABB,
      slabTNear, slabTFar, vinv, vmul, vmin, vmax, EPSILON,
      min_def, max_def, boxCenter, maxAxisNormal, glslSign, abs_of_pos, abs_of_neg, dot]
  exact ⟨by norm_num, hHit,
    traceLoop_hit_step zeroOracle sceneCube 2 ⟨0, 0, 0⟩ ⟨1, 1, 1⟩ ⟨0, 0, 0⟩ 1 (by norm_num) hHit⟩

/-- C7: the bounce budget is three and fragShader runs the loop with exactly
that budget from black color and unit transmission; an exhausted budget
returns the accumulated color unchanged, discarding leftover transmission
rather than blending it with the background, so at most three sphere or box
hits ever contribute; the loop also stops when transmission falls below one
hundredth, and an iteration that selects no sphere or box hit composites the
plane or background once and stops; a selected hit composites once and
recurses on the remaining budget. -/
theorem traceLoop_budget (nm : NormalOracle) (s : Scene) (n : Nat) (ro rd col : Vec3) (tr : ℝ) :
    MAX_BOUNCES = 3 ∧
    fragShader nm s ro rd =
      ⟨(traceLoop nm s 3 ro rd ⟨0, 0, 0⟩ 1).x, (traceLoop nm s 3 ro rd ⟨0, 0, 0⟩ 1).y,
        (traceLoop nm s 3 ro rd ⟨0, 0, 0⟩ 1).z, 1⟩ ∧
    traceLoop nm s 0 ro rd col tr = col ∧
    (tr < 0.01 → traceLoop nm s (n + 1) ro rd col tr = col) ∧
    (¬ tr < 0.01 → ¬ 0 < (selectHit nm s ro rd).hitType →
      traceLoop nm s (n + 1) ro rd col tr = col + tr • planeOrBackground s ro rd) ∧
    (¬ tr < 0.01 → 0 < (selectHit nm s ro rd).hitType →
      traceLoop nm s (n + 1) ro rd col tr =
        traceLoop nm s n (ro + ((selectHit nm s ro rd).t + EPSILON * 2) • rd) rd
          (col + (tr * (selectHit nm s ro rd).colorAlpha.a) •
            (selectHit nm s ro rd).colorAlpha.rgb)
          (tr * (1 - (selectHit nm s ro rd).colorAlpha.a))) := by
  refine ⟨rfl, rfl, ?_, ?_, ?_, ?_⟩
  · rw [traceLoop]
  · intro h
    rw [traceLoop, if_pos h]
  · intro h1 h2
    rw [traceLoop, if_neg h1, if_neg h2]
  · intro h1 h2
    rw [traceLoop, if_neg h1, if_pos h2]

/-- Witness for C7: with transmission one two hundredth, below the cutoff, a
loop iteration returns the accumulated color unchanged. -/
theorem traceLoop_budget_witness :
    (1 : ℝ) / 200 < 0.01 ∧
    traceLoop zeroOracle sceneCube 1 ⟨0, 0, 0⟩ ⟨1, 1, 1⟩ ⟨1, 2, 3⟩ (1 / 200) = ⟨1, 2, 3⟩ :=
  ⟨by norm_num,
    (traceLoop_budget zeroOracle sceneCube 0 ⟨0, 0, 0⟩ ⟨1, 1, 1⟩ ⟨1, 2, 3⟩ (1 / 200)).2.2.2.1
      (by norm_num)⟩

/-- Helper: the hit distance reported by the AABB test does not depend on the
incoming value of the out parameter. -/
theorem intersectAABB_fst_indep (ro rd bmin bmax i j : Vec3) :
    (intersectAABB ro rd bmin bmax i).1 = (intersectAABB ro rd bmin bmax j).1 := by
  simp only [intersectAABB]
  split_ifs <;> rfl

/-- Helper: hit distance, color and hit type of the nearest-hit selection do
not depend on the normal oracle. -/
theorem selectHit_indep (nm1 nm2 : NormalOracle) (s : Scene) (ro rd : Vec3) :
    (selectHit nm1 s ro rd).t = (selectHit nm2 s ro rd).t ∧
    (selectHit nm1 s ro rd).colorAlpha = (selectHit nm2 s ro rd).colorAlpha ∧
    (selectHit nm1 s ro rd).hitType = (selectHit nm2 s ro rd).hitType := by
  simp only [selectHit]
  rw [intersectAABB_fst_indep ro rd s.cubeMin s.cubeMax nm1.cubeInit nm2.cubeInit]
  split_ifs <;> simp_all

/-- Helper: the traced color does not depend on the normal oracle. -/
theorem traceLoop_indep (nm1 nm2 : NormalOracle) (s : Scene) (n : Nat) :
    ∀ (ro rd col : Vec3) (tr : ℝ),
      traceLoop nm1 s n ro rd col tr = traceLoop nm2 s n ro rd col tr := by
  induction n with
  | zero =>
    intro ro rd col tr
    rw [traceLoop, traceLoop]
  | succ n ih =>
    intro ro rd col tr
    rw [traceLoop, traceLoop]
    obtain ⟨ht, hca, htype⟩ := selectHit_indep nm1 nm2 s ro rd
    simp only [ht, hca, htype, ih]

/-- C10: the traced color and the fragment output are the same for any two
assignments of surface normal values, covering the sphere hit normal and the
incoming value of the AABB out parameter when the box is missed, and the
output alpha component is always exactly one. -/
theorem trace_normals_irrelevant (nm1 nm2 : NormalOracle) (s : Scene) (n : Nat)
    (ro rd col : Vec3) (tr : ℝ) :
    traceLoop nm1 s n ro rd col tr = traceLoop nm2 s n ro rd col tr ∧
    fragShader nm1 s ro rd = fragShader nm2 s ro rd ∧
    (fragShader nm1 s ro rd).w = 1 := by
  refine ⟨traceLoop_indep nm1 nm2 s n ro rd col tr, ?_, rfl⟩
  simp only [fragShader, traceLoop_indep nm1 nm2 s MAX_BOUNCES ro rd]

/-- C5 counterexample: the entry face axis clause of the claim is false of the
code.  On the scene box with corners two fifths, minus three fifths, minus two
fifths and seven fifths, three fifths, three fifths, whose half extents are
unequal, a ray from the low x side entering through the low x face near its
high y edge has box local hit point with absolute y coordinate above the
absolute x coordinate, so the largest axis rule reports the normal zero one
zero instead of the entry face axis vector minus one zero zero.  The direction
here carries tiny nonzero y and z components because an exactly axis parallel
direction divides by zero in the other slabs; under the shader's IEEE
semantics the exactly axis parallel ray one zero zero from the same origin
enters the same face at the same point and reports the same wrong normal. -/
theorem intersectAABB_axis_entry_counterexample :
    (Vec3.mk (-1) (11/20) (1/10)).x < (Vec3.mk (2/5) (-3/5) (-2/5)).x ∧
    slabTNear ⟨-1, 11/20, 1/10⟩ ⟨1, 1/1000, 1/1000⟩ ⟨2/5, -3/5, -2/5⟩ ⟨7/5, 3/5, 3/5⟩ = 7/5 ∧
    (Vec3.mk (-1) (11/20) (1/10) +
      slabTNear ⟨-1, 11/20, 1/10⟩ ⟨1, 1/1000, 1/1000⟩ ⟨2/5, -3/5, -2/5⟩ ⟨7/5, 3/5, 3/5⟩ •
        Vec3.mk 1 (1/1000) (1/1000)).x = 2/5 ∧
    (intersectAABB ⟨-1, 11/20, 1/10⟩ ⟨1, 1/1000, 1/1000⟩ ⟨2/5, -3/5, -2/5⟩ ⟨7/5, 3/5, 3/5⟩
      ⟨0, 0, 0⟩).1 = 7/5 ∧
    (intersectAABB ⟨-1, 11/20, 1/10⟩ ⟨1, 1/1000, 1/1000⟩ ⟨2/5, -3/5, -2/5⟩ ⟨7/5, 3/5, 3/5⟩
      ⟨0, 0, 0⟩).2 = ⟨0, 1, 0⟩ ∧
    Vec3.mk 0 1 0 ≠ Vec3.mk (-1) 0 0 := by
  have hN : slabTNear ⟨-1, 11/20, 1/10⟩ ⟨1, 1/1000, 1/1000⟩ ⟨2/5, -3/5, -2/5⟩ ⟨7/5, 3/5, 3/5⟩
      = 7/5 := by
    norm_num [slabTNear, vinv, vmul, vmin, min_def, max_def]
  refine ⟨by norm_num, hN, ?_, ?_, ?_, by norm_num [Vec3.mk.injEq]⟩
  · rw [hN]
    norm_num
  · norm_num [intersectAABB, slabTNear, slabTFar, vinv, vmul, vmin, vmax, EPSILON,
      min_def, max_def, boxCenter, maxAxisNormal, glslSign, abs_of_pos, abs_of_neg]
  · norm_num [intersectAABB, slabTNear, slabTFar, vinv, vmul, vmin, vmax, EPSILON,
      min_def, max_def, boxCenter, maxAxisNormal, glslSign, abs_of_pos, abs_of_neg]

/-- C5 amended: for a ray accepted by the slab test, the reported hit normal
is the largest absolute axis rule applied to the hit point relative to the box
center, signed by that local coordinate; entering from the low x side through
the low x face with the local x magnitude dominant at the hit point, this is
the unit x normal signed toward the ray origin.  The dominance hypotheses are
forced by the counterexample: entry near a face edge of a box with unequal
half extents reports another axis.  An exactly axis parallel direction makes
the shader divide by zero in the other slabs, so the entry is phrased through
the entry-face hypothesis on tNear. -/
theorem intersectAABB_entry_normal (ro rd bmin bmax init : Vec3)
    (h1 : slabTNear ro rd bmin bmax < slabTFar ro rd bmin bmax)
    (h2 : EPSILON < slabTFar ro rd bmin bmax)
    (h3 : EPSILON < slabTNear ro rd bmin bmax) :
    (intersectAABB ro rd bmin bmax init).2 =
      maxAxisNormal ((ro + slabTNear ro rd bmin bmax • rd) - boxCenter bmin bmax) ∧
    (ro.x < bmin.x → bmin.x < bmax.x →
      slabTNear ro rd bmin bmax = (bmin.x - ro.x) * (1 / rd.x) →
      |((ro + slabTNear ro rd bmin bmax • rd) - boxCenter bmin bmax).y| <
        |((ro + slabTNear ro rd bmin bmax • rd) - boxCenter bmin bmax).x| →
      |((ro + slabTNear ro rd bmin bmax • rd) - boxCenter bmin bmax).z| <
        |((ro + slabTNear ro rd bmin bmax • rd) - boxCenter bmin bmax).x| →
      (intersectAABB ro rd bmin bmax init).2 = ⟨-1, 0, 0⟩ ∧
      (ro + slabTNear ro rd bmin bmax • rd).x = bmin.x) := by
  have hmain : (intersectAABB ro rd bmin bmax init).2 =
      maxAxisNormal ((ro + slabTNear ro rd bmin bmax • rd) - boxCenter bmin bmax) := by
    simp only [intersectAABB]
    rw [if_pos ⟨h1, h2⟩, if_pos h3]
  refine ⟨hmain, ?_⟩
  intro hro hbx hface hy hz
  have heps : (0 : ℝ) < EPSILON := by norm_num [EPSILON]
  have htpos : 0 < slabTNear ro rd bmin bmax := lt_trans heps h3
  have hbro : 0 < bmin.x - ro.x := by linarith
  have hinv : 0 < 1 / rd.x := by
    rcases lt_trichotomy (1 / rd.x) 0 with hlt | heq | hgt
    · exfalso
      have hneg : slabTNear ro rd bmin bmax < 0 := by
        rw [hface]
        exact mul_neg_of_pos_of_neg hbro hlt
      linarith
    · exfalso
      have hzero : slabTNear ro rd bmin bmax = 0 := by
        rw [hface, heq, mul_zero]
      linarith
    · exact hgt
  have hrdx : rd.x ≠ 0 := by
    intro h0
    rw [h0] at hinv
    norm_num at hinv
  have hhx : (ro + slabTNear ro rd bmin bmax • rd).x = bmin.x := by
    simp only [add_x, smul_x]
    rw [hface]
    field_simp
  have hlx : ((ro + slabTNear ro rd bmin bmax • rd) - boxCenter bmin bmax).x =
      (bmin.x - bmax.x) / 2 := by
    rw [sub_x, hhx]
    simp only [boxCenter, smul_x, add_x]
    ring
  have hlxneg : ((ro + slabTNear ro rd bmin bmax • rd) - boxCenter bmin bmax).x < 0 := by
    rw [hlx]
    linarith
  refine ⟨?_, hhx⟩
  rw [hmain]
  simp only [maxAxisNormal]
  rw [if_pos ⟨hy, hz⟩]
  have hsgn : glslSign (((ro + slabTNear ro rd bmin bmax • rd) - boxCenter bmin bmax).x) = -1 := by
    simp only [glslSign]
    rw [if_neg (not_lt.mpr hlxneg.le), if_pos hlxneg]
  rw [hsgn]

/-- Witness for C5: a ray from the low x side entering the two wide box at its
low x face receives the hit normal minus one zero zero, pointing back toward
the ray origin. -/
theorem intersectAABB_entry_normal_witness :
    EPSILON < slabTNear ⟨-1, 2, 2⟩ ⟨1, 1/100, 1/100⟩ ⟨1, 1, 1⟩ ⟨3, 3, 3⟩ ∧
    (Vec3.mk (-1) 2 2).x < (Vec3.mk 1 1 1).x ∧
    (intersectAABB ⟨-1, 2, 2⟩ ⟨1, 1/100, 1/100⟩ ⟨1, 1, 1⟩ ⟨3, 3, 3⟩ ⟨0, 0, 0⟩).2 =
      ⟨-1, 0, 0⟩ := by
  have hN : slabTNear ⟨-1, 2, 2⟩ ⟨1, 1/100, 1/100⟩ ⟨1, 1, 1⟩ ⟨3, 3, 3⟩ = 2 := by
    norm_num [slabTNear, vinv, vmul, vmin, min_def, max_def]
  have hF : slabTFar ⟨-1, 2, 2⟩ ⟨1, 1/100, 1/100⟩ ⟨1, 1, 1⟩ ⟨3, 3, 3⟩ = 4 := by
    norm_num [slabTFar, vinv, vmul, vmax, min_def, max_def]
  have h := intersectAABB_entry_normal ⟨-1, 2, 2⟩ ⟨1, 1/100, 1/100⟩ ⟨1, 1, 1⟩ ⟨3, 3, 3⟩ ⟨0, 0, 0⟩
    (by rw [hN, hF]; norm_num) (by rw [hF]; norm_num [EPSILON]) (by rw [hN]; norm_num [EPSILON])
  refine ⟨by rw [hN]; norm_num [EPSILON], by norm_num, ?_⟩
  exact (h.2 (by norm_num) (by norm_num) (by rw [hN]; norm_num)
    (by rw [hN]; norm_num [boxCenter, abs_of_pos, abs_of_neg])
    (by rw [hN]; norm_num [boxCenter, abs_of_pos, abs_of_neg])).1

end Task3
